import Mathlib

/-!
Verification of the CloudMiner repository (src/cloudminer): a shallow
embedding in Lean 4 of the HTTP retry helper, the session construction and
package operations of azure_automation_session.py, the upload-wait loop and
the executor flows of scripts_executor.py, and the CLI flow of
cloud_miner.py, together with theorems settling the specification claims.

Modelling conventions: machine time is an exact rational clock; time.sleep
advances the clock by exactly the requested amount and every other
operation is instantaneous; the network is an oracle assigning to each
attempt index the outcome of the corresponding requests.request call.
-/

namespace CloudMiner

/-! ## Constants from azure_automation_session.py (lines 15 to 22) -/

def DEFAULT_API_VERSION : String := "2018-06-30"
def UPLOAD_TIMEOUT : Nat := 300
def SLEEP_BETWEEN_ERROR_SECONDS : ℚ := 10
def TIME_BETWEEN_REQUESTS_SECONDS : ℚ := 1/2
def HTTP_REQUEST_TIMEOUT : Nat := 5

/-- Default value of the retries parameter of AzureAutomationSession.__http_request. -/
def DEFAULT_RETRIES : Nat := 5

/-! HTTP status constants from pythons http.HTTPStatus, as used by the source. -/

def HTTPStatus_TOO_MANY_REQUESTS : Nat := 429
def HTTPStatus_GATEWAY_TIMEOUT : Nat := 504
def HTTPStatus_SERVICE_UNAVAILABLE : Nat := 503
def HTTPStatus_UNAUTHORIZED : Nat := 401
def HTTPStatus_BAD_REQUEST : Nat := 400
def HTTPStatus_NOT_FOUND : Nat := 404

/-- The status codes on which __http_request retries (line 121 to 123 of
azure_automation_session.py): TOO_MANY_REQUESTS, GATEWAY_TIMEOUT,
SERVICE_UNAVAILABLE. -/
def RETRY_STATUS_CODES : List Nat :=
  [HTTPStatus_TOO_MANY_REQUESTS, HTTPStatus_GATEWAY_TIMEOUT, HTTPStatus_SERVICE_UNAVAILABLE]

/-- Modelled from the spec: the transient status codes as the specification
text lists them, namely 429, 502 and 503.  Used only to compare the
specified retry set with the retry set of the source. -/
def SPEC_TRANSIENT_STATUS_CODES : List Nat := [429, 502, 503]

/-! ## The network oracle

One attempt of the loop at line 114 of azure_automation_session.py either
raises one of the exceptions caught at line 118 (ReadTimeout,
ChunkedEncodingError, the builtin ConnectionError), leaving resp = None, or
produces a response with a status code and a body.  The body type is a
parameter; package endpoints use PackageData below. -/

inductive Attempt (β : Type) where
  | transportError
  | response (status : Nat) (body : β)
deriving DecidableEq, Repr

/-- Outcome of one call to __http_request: the returned response, an
HTTPError raised by raise_for_status, or the CloudMinerException raised at
line 131 when the retry count is exhausted. -/
inductive HttpOutcome (β : Type) where
  | ok (status : Nat) (body : β)
  | httpError (status : Nat)
  | cloudMinerError (msg : String)
deriving DecidableEq, Repr

/-- Message of the CloudMinerException raised when the maximum retry count
is reached (line 131; the source message also interpolates the method and
the URL, which the model elides). -/
def MSG_MAX_RETRIES : String := "发送 HTTP 请求失败 - 达到最大重试次数"

/-- requests raise_for_status raises an HTTPError exactly for status codes
in the 4xx and 5xx ranges. -/
def raiseForStatusRaises (status : Nat) : Prop :=
  400 ≤ status ∧ status < 600

instance : DecidablePred raiseForStatusRaises :=
  fun status => inferInstanceAs (Decidable (400 ≤ status ∧ status < 600))

/-- An attempt makes the loop at line 114 retry exactly when resp is None
(a caught transport exception) or the status code is in RETRY_STATUS_CODES
(line 121). -/
def Attempt.isRetryable {β : Type} : Attempt β → Bool
  | .transportError => true
  | .response status _ => decide (status ∈ RETRY_STATUS_CODES)

/-- The outcome a non-retryable attempt settles the helper with: an error
status raises through raise_for_status, anything else is returned (lines
127 to 129).  A transport-error attempt never settles the call. -/
def Attempt.settles {β : Type} : Attempt β → HttpOutcome β → Prop
  | .transportError, _ => False
  | .response status body, o =>
      o = if raiseForStatusRaises status then .httpError status else .ok status body

/-- The retry loop of __http_request (lines 114 to 132), instrumented with
the attempt index: given the network oracle, the index of the next attempt
and the remaining iterations of range(retries), it returns the outcome and
the total number of attempts issued. -/
def http_request_go {β : Type} (env : Nat → Attempt β) : Nat → Nat → HttpOutcome β × Nat
  | i, 0 => (.cloudMinerError MSG_MAX_RETRIES, i)
  | i, fuel + 1 =>
    match env i with
    | .transportError => http_request_go env (i + 1) fuel
    | .response status body =>
      if status ∈ RETRY_STATUS_CODES then http_request_go env (i + 1) fuel
      else if raiseForStatusRaises status then (.httpError status, i + 1)
      else (.ok status body, i + 1)

/-- AzureAutomationSession.__http_request (lines 86 to 132), abstracted
from the clock and the session state (see http_request_timed for those):
outcome together with the number of attempts issued. -/
def http_request {β : Type} (env : Nat → Attempt β) (retries : Nat) : HttpOutcome β × Nat :=
  http_request_go env 0 retries

/-- Modelled from the spec: the same retry loop but retrying on the status
codes the specification lists (429/502/503) instead of the ones in the
source.  Used only to exhibit the divergence between the two. -/
def http_request_spec_go {β : Type} (env : Nat → Attempt β) : Nat → Nat → HttpOutcome β × Nat
  | i, 0 => (.cloudMinerError MSG_MAX_RETRIES, i)
  | i, fuel + 1 =>
    match env i with
    | .transportError => http_request_spec_go env (i + 1) fuel
    | .response status body =>
      if status ∈ SPEC_TRANSIENT_STATUS_CODES then http_request_spec_go env (i + 1) fuel
      else if raiseForStatusRaises status then (.httpError status, i + 1)
      else (.ok status body, i + 1)

/-- Modelled from the spec: __http_request with the retry set the
specification text describes. -/
def http_request_spec {β : Type} (env : Nat → Attempt β) (retries : Nat) : HttpOutcome β × Nat :=
  http_request_spec_go env 0 retries

/-! Concrete oracles used in closed instances. -/

/-- Oracle whose first attempt returns status 502 and whose later attempts
return status 200. -/
def env502then200 : Nat → Attempt String :=
  fun i => if i = 0 then .response 502 "bad gateway" else .response 200 "fine"

/-- Oracle all of whose attempts return status 504. -/
def env504 : Nat → Attempt String := fun _ => .response 504 "gateway timeout"

/-- Oracle all of whose attempts raise a caught transport exception. -/
def envTransport : Nat → Attempt String := fun _ => .transportError

example : http_request env502then200 5 = (.httpError 502, 1) := by decide
example : http_request env504 5 = (.cloudMinerError MSG_MAX_RETRIES, 5) := by decide
example : http_request_spec env502then200 5 = (.ok 200 "fine", 2) := by decide

/-! ## Characterization of the retry loop -/

theorem http_request_go_count_ge {β : Type} (env : Nat → Attempt β) :
    ∀ (fuel i : Nat), i ≤ (http_request_go env i fuel).2 := by
  intro fuel
  induction fuel with
  | zero => intro i; simp [http_request_go]
  | succ fuel ih =>
    intro i
    cases h : env i with
    | transportError =>
      simp only [http_request_go, h]
      exact le_trans (Nat.le_succ i) (ih (i + 1))
    | response status body =>
      simp only [http_request_go, h]
      by_cases hs : status ∈ RETRY_STATUS_CODES
      · rw [if_pos hs]
        exact le_trans (Nat.le_succ i) (ih (i + 1))
      · rw [if_neg hs]
        by_cases hr : raiseForStatusRaises status <;> simp [hr, Nat.le_succ]

theorem http_request_go_count_le {β : Type} (env : Nat → Attempt β) :
    ∀ (fuel i : Nat), (http_request_go env i fuel).2 ≤ i + fuel := by
  intro fuel
  induction fuel with
  | zero => intro i; simp [http_request_go]
  | succ fuel ih =>
    intro i
    cases h : env i with
    | transportError =>
      simp only [http_request_go, h]
      calc (http_request_go env (i + 1) fuel).2 ≤ i + 1 + fuel := ih (i + 1)
        _ = i + (fuel + 1) := by omega
    | response status body =>
      simp only [http_request_go, h]
      by_cases hs : status ∈ RETRY_STATUS_CODES
      · rw [if_pos hs]
        calc (http_request_go env (i + 1) fuel).2 ≤ i + 1 + fuel := ih (i + 1)
          _ = i + (fuel + 1) := by omega
      · rw [if_neg hs]
        by_cases hr : raiseForStatusRaises status <;> simp [hr]

theorem http_request_go_retried_prefix {β : Type} (env : Nat → Attempt β) :
    ∀ (fuel i j : Nat), i ≤ j → j + 1 < (http_request_go env i fuel).2 →
      (env j).isRetryable = true := by
  intro fuel
  induction fuel with
  | zero =>
    intro i j hij hj
    simp only [http_request_go] at hj
    omega
  | succ fuel ih =>
    intro i j hij hj
    cases h : env i with
    | transportError =>
      simp only [http_request_go, h] at hj
      rcases Nat.lt_or_ge j (i + 1) with hji | hji
      · have : j = i := by omega
        subst this
        simp [Attempt.isRetryable, h]
      · exact ih (i + 1) j hji hj
    | response status body =>
      simp only [http_request_go, h] at hj
      by_cases hs : status ∈ RETRY_STATUS_CODES
      · rw [if_pos hs] at hj
        rcases Nat.lt_or_ge j (i + 1) with hji | hji
        · have : j = i := by omega
          subst this
          simp [Attempt.isRetryable, h, hs]
        · exact ih (i + 1) j hji hj
      · rw [if_neg hs] at hj
        by_cases hr : raiseForStatusRaises status <;> simp [hr] at hj <;> omega

theorem http_request_go_exhausted {β : Type} (env : Nat → Attempt β) :
    ∀ (fuel i : Nat), (∀ j, i ≤ j → j < i + fuel → (env j).isRetryable = true) →
      http_request_go env i fuel = (.cloudMinerError MSG_MAX_RETRIES, i + fuel) := by
  intro fuel
  induction fuel with
  | zero => intro i _; simp [http_request_go]
  | succ fuel ih =>
    intro i hall
    have hi : (env i).isRetryable = true := hall i le_rfl (by omega)
    cases h : env i with
    | transportError =>
      simp only [http_request_go, h]
      rw [ih (i + 1) (fun j h1 h2 => hall j (by omega) (by omega))]
      refine Prod.ext rfl ?_
      simp
      omega
    | response status body =>
      have hs : status ∈ RETRY_STATUS_CODES := by
        rw [h] at hi
        simpa [Attempt.isRetryable] using hi
      simp only [http_request_go, h]
      rw [if_pos hs, ih (i + 1) (fun j h1 h2 => hall j (by omega) (by omega))]
      refine Prod.ext rfl ?_
      simp
      omega

theorem http_request_go_settled {β : Type} (env : Nat → Attempt β) :
    ∀ (fuel i : Nat), (http_request_go env i fuel).1 ≠ .cloudMinerError MSG_MAX_RETRIES →
      i < (http_request_go env i fuel).2
      ∧ (env ((http_request_go env i fuel).2 - 1)).isRetryable = false
      ∧ (env ((http_request_go env i fuel).2 - 1)).settles (http_request_go env i fuel).1 := by
  intro fuel
  induction fuel with
  | zero => intro i hne; simp [http_request_go] at hne
  | succ fuel ih =>
    intro i hne
    cases h : env i with
    | transportError =>
      simp only [http_request_go, h] at hne ⊢
      have := ih (i + 1) hne
      exact ⟨by omega, this.2.1, this.2.2⟩
    | response status body =>
      simp only [http_request_go, h] at hne ⊢
      by_cases hs : status ∈ RETRY_STATUS_CODES
      · rw [if_pos hs] at hne ⊢
        have := ih (i + 1) hne
        exact ⟨by omega, this.2.1, this.2.2⟩
      · rw [if_neg hs] at hne ⊢
        by_cases hr : raiseForStatusRaises status <;>
          simp [hr, h, Attempt.isRetryable, hs, Attempt.settles]

/-- C1 (amended): the helper retries exactly on the attempts that raise one
of the caught transport exceptions or answer with a status code in
RETRY_STATUS_CODES, that is 429, 504 or 503: every attempt followed by
another was retryable, and unless the retry count was exhausted the final
attempt was not retryable and settles the call, raising immediately for an
error status outside the retry set and returning the response otherwise. -/
theorem http_request_retries_exactly_on_retryable_attempts {β : Type}
    (env : Nat → Attempt β) (retries : Nat) :
    (∀ j, j + 1 < (http_request env retries).2 → (env j).isRetryable = true)
    ∧ ((http_request env retries).1 ≠ .cloudMinerError MSG_MAX_RETRIES →
        0 < (http_request env retries).2
        ∧ (env ((http_request env retries).2 - 1)).isRetryable = false
        ∧ (env ((http_request env retries).2 - 1)).settles (http_request env retries).1) :=
  ⟨fun j hj => http_request_go_retried_prefix env retries 0 j (Nat.zero_le j) hj,
   fun hne => http_request_go_settled env retries 0 hne⟩

/-- C1 (counterexample): the transient status set of the source is not the
429/502/503 of the claim.  A first attempt answering 502 makes the helper
raise at once after a single attempt, where the claimed retry set would
have retried and returned the 200 of the second attempt; and attempts
answering 504 are retried to exhaustion, where the claim would have the
helper raise immediately. -/
theorem http_request_diverges_from_spec_transient_codes :
    http_request env502then200 DEFAULT_RETRIES = (.httpError 502, 1)
    ∧ http_request_spec env502then200 DEFAULT_RETRIES = (.ok 200 "fine", 2)
    ∧ http_request env504 DEFAULT_RETRIES = (.cloudMinerError MSG_MAX_RETRIES, 5)
    ∧ http_request_spec env504 DEFAULT_RETRIES = (.httpError 504, 1) := by
  decide

/-- C2: the retry loop is bounded: the default retry count is 5, at most
retries attempts are made, and when every available attempt is retryable
the helper raises the CloudMinerException reporting that the maximum retry
count was reached.  The helper is a total function, so it terminates on
every input with one of the three outcome forms. -/
theorem http_request_bounded_and_exhaustion {β : Type}
    (env : Nat → Attempt β) (retries : Nat) :
    DEFAULT_RETRIES = 5
    ∧ (http_request env retries).2 ≤ retries
    ∧ ((∀ j, j < retries → (env j).isRetryable = true) →
        http_request env retries = (.cloudMinerError MSG_MAX_RETRIES, retries)) := by
  refine ⟨rfl, ?_, ?_⟩
  · simpa using http_request_go_count_le env retries 0
  · intro hall
    have := http_request_go_exhausted env retries 0 (fun j _ hj => hall j (by omega))
    simpa [http_request] using this

/-! ## Session construction and the package getter (untimed) -/

/-- Result of a session operation: normal return, a CloudMinerException, or
a propagated requests.HTTPError. -/
inductive OpResult (α : Type) where
  | ok (value : α)
  | cloudMinerError (msg : String)
  | httpError (status : Nat)
deriving DecidableEq, Repr

/-- Message raised at line 60 when the validation request answers 401 (the
source text, unquoted). -/
def MSG_INVALID_TOKEN : String := "提供的访问令牌无效"

/-- Message raised at line 62 when the validation request answers 400; the
source interpolates the account id between quote marks, elided here. -/
def MSG_INVALID_ACCOUNT_ID (account_id : String) : String :=
  "提供的 Automation Account ID 无效 - " ++ account_id

/-- Message raised at line 64 when the validation request answers 404. -/
def MSG_ACCOUNT_NOT_EXIST (account_id : String) : String :=
  "Automation Account 不存在 - " ++ account_id

/-- AzureAutomationSession.__init__ (lines 40 to 65): one GET against the
account URL; requests.HTTPError with status 401, 400 or 404 is mapped to a
CloudMinerException, any other HTTPError is re-raised unchanged, and the
CloudMinerException of an exhausted retry loop propagates as well. -/
def AzureAutomationSession.init {β : Type} (account_id : String) (env : Nat → Attempt β) :
    OpResult Unit :=
  match (http_request env DEFAULT_RETRIES).1 with
  | .ok _ _ => .ok ()
  | .cloudMinerError msg => .cloudMinerError msg
  | .httpError status =>
    if status = HTTPStatus_UNAUTHORIZED then .cloudMinerError MSG_INVALID_TOKEN
    else if status = HTTPStatus_BAD_REQUEST then
      .cloudMinerError (MSG_INVALID_ACCOUNT_ID account_id)
    else if status = HTTPStatus_NOT_FOUND then
      .cloudMinerError (MSG_ACCOUNT_NOT_EXIST account_id)
    else .httpError status

/-- AzureAutomationSession.get_python_package (lines 193 to 206): GET the
package; an HTTPError with status 404 is turned into the return value None,
any other HTTPError re-raises, a normal response returns its json body. -/
def get_python_package {β : Type} (env : Nat → Attempt β) : OpResult (Option β) :=
  match (http_request env DEFAULT_RETRIES).1 with
  | .ok _ body => .ok (some body)
  | .cloudMinerError msg => .cloudMinerError msg
  | .httpError status =>
    if status = HTTPStatus_NOT_FOUND then .ok none
    else .httpError status

/-- C4: constructing a session maps the HTTP error of the validation
request exactly as claimed: 401 to the invalid-token CloudMinerException,
400 to the invalid-account-id one, 404 to the account-does-not-exist one,
and any other error status propagates as the same HTTPError. -/
theorem azure_session_init_error_mapping {β : Type} (env : Nat → Attempt β)
    (account_id : String) (status : Nat)
    (h : (http_request env DEFAULT_RETRIES).1 = .httpError status) :
    AzureAutomationSession.init account_id env =
      if status = HTTPStatus_UNAUTHORIZED then .cloudMinerError MSG_INVALID_TOKEN
      else if status = HTTPStatus_BAD_REQUEST then
        .cloudMinerError (MSG_INVALID_ACCOUNT_ID account_id)
      else if status = HTTPStatus_NOT_FOUND then
        .cloudMinerError (MSG_ACCOUNT_NOT_EXIST account_id)
      else .httpError status := by
  simp only [AzureAutomationSession.init, h]

/-- Oracle all of whose attempts return status 401. -/
def env401 : Nat → Attempt String := fun _ => .response 401 "unauthorized"

/-- C4 (witness): against an oracle that always answers 401, the session
constructor raises the invalid-token CloudMinerException. -/
theorem azure_session_init_error_mapping_instance :
    AzureAutomationSession.init "a1" env401 = .cloudMinerError MSG_INVALID_TOKEN := by
  have h := azure_session_init_error_mapping env401 "a1" 401 (by decide)
  simpa [HTTPStatus_UNAUTHORIZED] using h

/-- C9: get_python_package returns None exactly when the request raised an
HTTPError with status 404; a returned response yields its json body; and
an HTTPError with any other status propagates unchanged. -/
theorem get_python_package_none_iff_404 {β : Type} (env : Nat → Attempt β) :
    (get_python_package env = .ok (none : Option β)
      ↔ (http_request env DEFAULT_RETRIES).1 = .httpError HTTPStatus_NOT_FOUND)
    ∧ (∀ status body, (http_request env DEFAULT_RETRIES).1 = .ok status body
        → get_python_package env = .ok (some body))
    ∧ (∀ status, status ≠ HTTPStatus_NOT_FOUND
        → (http_request env DEFAULT_RETRIES).1 = .httpError status
        → get_python_package env = .httpError status) := by
  cases hh : (http_request env DEFAULT_RETRIES).1 with
  | ok s b =>
    refine ⟨by simp [get_python_package, hh], ?_, ?_⟩
    · intro status body h2
      cases h2
      simp [get_python_package, hh]
    · intro status _ h2
      cases h2
  | httpError s =>
    by_cases h4 : s = HTTPStatus_NOT_FOUND
    · subst h4
      refine ⟨by simp [get_python_package, hh], ?_, ?_⟩
      · intro status body h2
        cases h2
      · intro status hne h2
        cases h2
        exact absurd rfl hne
    · refine ⟨?_, ?_, ?_⟩
      · simp [get_python_package, hh, h4]
      · intro status body h2
        cases h2
      · intro status hne h2
        cases h2
        simp [get_python_package, hh, h4]
  | cloudMinerError m =>
    refine ⟨by simp [get_python_package, hh], ?_, ?_⟩
    · intro status body h2
      cases h2
    · intro status hne h2
      cases h2

/-! ## The upload-state enum (lines 24 to 34) -/

/-- UPLOAD_STATE: the package/module upload-state enum. -/
inductive UPLOAD_STATE where
  | FAILED
  | CREATING
  | SUCCEEDED
  | CONTENT_VALIDATED
  | CONTENT_DOWNLOADED
  | CONNECTION_TYPE_IMPORTED
  | RUNNING_IMPORT_MODULE_RUNBOOK
deriving DecidableEq, Repr, Fintype

/-- The string value of each UPLOAD_STATE member. -/
def UPLOAD_STATE.value : UPLOAD_STATE → String
  | .FAILED => "Failed"
  | .CREATING => "Creating"
  | .SUCCEEDED => "Succeeded"
  | .CONTENT_VALIDATED => "ContentValidated"
  | .CONTENT_DOWNLOADED => "ContentDownloaded"
  | .CONNECTION_TYPE_IMPORTED => "ConnectionTypeImported"
  | .RUNNING_IMPORT_MODULE_RUNBOOK => "RunningImportModuleRunbook"

/-- The members of the enum, in source order. -/
def UPLOAD_STATE.members : List UPLOAD_STATE :=
  [.FAILED, .CREATING, .SUCCEEDED, .CONTENT_VALIDATED, .CONTENT_DOWNLOADED,
   .CONNECTION_TYPE_IMPORTED, .RUNNING_IMPORT_MODULE_RUNBOOK]

/-- Equality of an UPLOAD_STATE member with a string: the enum derives str,
so a member compares equal to a string exactly when the string is its
value. -/
def UPLOAD_STATE.eqStr (s : UPLOAD_STATE) (t : String) : Bool := s.value == t

/-- C6: UPLOAD_STATE has exactly the seven distinct members listed in the
source, their string values are exactly the seven claimed strings (all
distinct), and each member compares equal to its own string value. -/
theorem upload_state_seven_flat_string_values :
    UPLOAD_STATE.members.length = 7
    ∧ UPLOAD_STATE.members.Nodup
    ∧ (∀ s : UPLOAD_STATE, s ∈ UPLOAD_STATE.members)
    ∧ UPLOAD_STATE.members.map UPLOAD_STATE.value =
        ["Failed", "Creating", "Succeeded", "ContentValidated", "ContentDownloaded",
         "ConnectionTypeImported", "RunningImportModuleRunbook"]
    ∧ (UPLOAD_STATE.members.map UPLOAD_STATE.value).Nodup
    ∧ (∀ s : UPLOAD_STATE, UPLOAD_STATE.eqStr s s.value = true) := by
  decide

/-! ## The upload-wait loop (scripts_executor.py, lines 89 to 120)

The wall clock is a Nat number of seconds: every constant of the loop is an
integer.  Each poll returns what get_python_package returns, either None or
the package json, reduced to the fields the loop reads. -/

/-- The fields of the package json that _wait_for_package_upload reads:
properties.provisioningState and properties.error.message. -/
structure PackageData where
  provisioningState : String
  errorMessage : String
deriving DecidableEq, Repr

/-- Seconds between two polls of the package endpoint (class attribute of
PythonScriptExecutor). -/
def PythonScriptExecutor.UPLOAD_STATE_CHECK_INTERVAL_SECONDS : Nat := 20

/-- How one call of _wait_for_package_upload ends: normal return after the
Succeeded break, or one of its three CloudMinerException raises. -/
inductive WaitOutcome where
  | completed
  | startFailed
  | uploadFailed (msg : String)
  | timedOut
deriving DecidableEq, Repr

/-- PythonScriptExecutor._wait_for_package_upload (lines 89 to 120),
instrumented with the index of the last poll: while the clock is before
end_time, poll; a missing package raises (startFailed), state Succeeded
breaks out (completed), state Failed raises with the error message of the
server, any other state sleeps the fixed interval and polls again; when
the clock reaches end_time the loop's else clause raises (timedOut).  The
poll itself is instantaneous, the sleep advances the clock. -/
def PythonScriptExecutor.wait_for_package_upload (env : Nat → Option PackageData)
    (i t endTime : Nat) : WaitOutcome × Nat :=
  if _ : t < endTime then
    match env i with
    | none => (.startFailed, i)
    | some packageData =>
      if packageData.provisioningState = UPLOAD_STATE.SUCCEEDED.value then (.completed, i)
      else if packageData.provisioningState = UPLOAD_STATE.FAILED.value then
        (.uploadFailed packageData.errorMessage, i)
      else
        PythonScriptExecutor.wait_for_package_upload env (i + 1)
          (t + PythonScriptExecutor.UPLOAD_STATE_CHECK_INTERVAL_SECONDS) endTime
  else (.timedOut, i)
termination_by endTime - t
decreasing_by simp only [PythonScriptExecutor.UPLOAD_STATE_CHECK_INTERVAL_SECONDS]; omega

theorem wait_for_package_upload_props (st : Nat → PackageData) :
    ∀ (k i t endTime : Nat), endTime - t ≤ k →
      i ≤ (PythonScriptExecutor.wait_for_package_upload (fun j => some (st j)) i t endTime).2
      ∧ ((PythonScriptExecutor.wait_for_package_upload (fun j => some (st j)) i t endTime).1
          ≠ .startFailed)
      ∧ ((PythonScriptExecutor.wait_for_package_upload (fun j => some (st j)) i t endTime).1
            = .completed →
          (st (PythonScriptExecutor.wait_for_package_upload (fun j => some (st j)) i t
            endTime).2).provisioningState = UPLOAD_STATE.SUCCEEDED.value)
      ∧ (∀ m, (PythonScriptExecutor.wait_for_package_upload (fun j => some (st j)) i t
            endTime).1 = .uploadFailed m →
          (st (PythonScriptExecutor.wait_for_package_upload (fun j => some (st j)) i t
            endTime).2).provisioningState = UPLOAD_STATE.FAILED.value
          ∧ m = (st (PythonScriptExecutor.wait_for_package_upload (fun j => some (st j)) i t
            endTime).2).errorMessage)
      ∧ ((PythonScriptExecutor.wait_for_package_upload (fun j => some (st j)) i t endTime).1
            = .timedOut →
          endTime ≤ t + PythonScriptExecutor.UPLOAD_STATE_CHECK_INTERVAL_SECONDS *
            ((PythonScriptExecutor.wait_for_package_upload (fun j => some (st j)) i t
              endTime).2 - i)) := by
  intro k
  induction k with
  | zero =>
    intro i t endTime hk
    have hte : ¬ t < endTime := by omega
    rw [PythonScriptExecutor.wait_for_package_upload, dif_neg hte]
    exact ⟨le_rfl, by simp, by simp, by simp, fun _ => by omega⟩
  | succ k ih =>
    intro i t endTime hk
    by_cases hte : t < endTime
    · rw [PythonScriptExecutor.wait_for_package_upload, dif_pos hte]
      dsimp only
      by_cases hsuc : (st i).provisioningState = UPLOAD_STATE.SUCCEEDED.value
      · rw [if_pos hsuc]
        exact ⟨le_rfl, by simp, fun _ => hsuc, by simp, by simp⟩
      · by_cases hfail : (st i).provisioningState = UPLOAD_STATE.FAILED.value
        · rw [if_neg hsuc, if_pos hfail]
          refine ⟨le_rfl, by simp, by simp, ?_, by simp⟩
          intro m hm
          have hm2 : (st i).errorMessage = m := by simpa using hm
          exact ⟨hfail, hm2.symm⟩
        · rw [if_neg hsuc, if_neg hfail]
          have hk2 : endTime - (t + PythonScriptExecutor.UPLOAD_STATE_CHECK_INTERVAL_SECONDS)
              ≤ k := by
            simp only [PythonScriptExecutor.UPLOAD_STATE_CHECK_INTERVAL_SECONDS]
            omega
          have H := ih (i + 1) (t + PythonScriptExecutor.UPLOAD_STATE_CHECK_INTERVAL_SECONDS)
            endTime hk2
          refine ⟨le_trans (by omega) H.1, H.2.1, H.2.2.1, H.2.2.2.1, ?_⟩
          intro hto
          have hb := H.2.2.2.2 hto
          have hge := H.1
          simp only [PythonScriptExecutor.UPLOAD_STATE_CHECK_INTERVAL_SECONDS] at *
          omega
    · rw [PythonScriptExecutor.wait_for_package_upload, dif_neg hte]
      exact ⟨le_rfl, by simp, by simp, by simp, fun _ => by omega⟩

/-- C3: against any sequence of server-reported provisioning states (each
poll answers with package data), the wait loop terminates, and in exactly
one of the three claimed ways: normal return with the last polled state
Succeeded, a CloudMinerException carrying the error message of the server
with the last polled state Failed, or the timeout CloudMinerException once
the clock has passed end_time without a terminal state; it never raises
the missing-package exception and never loops forever. -/
theorem wait_for_package_upload_three_outcomes (st : Nat → PackageData)
    (i t endTime : Nat) :
    ((PythonScriptExecutor.wait_for_package_upload (fun j => some (st j)) i t endTime).1
        = .completed
      ∨ (∃ m, (PythonScriptExecutor.wait_for_package_upload (fun j => some (st j)) i t
          endTime).1 = .uploadFailed m)
      ∨ (PythonScriptExecutor.wait_for_package_upload (fun j => some (st j)) i t endTime).1
        = .timedOut)
    ∧ ((PythonScriptExecutor.wait_for_package_upload (fun j => some (st j)) i t endTime).1
          = .completed →
        (st (PythonScriptExecutor.wait_for_package_upload (fun j => some (st j)) i t
          endTime).2).provisioningState = UPLOAD_STATE.SUCCEEDED.value)
    ∧ (∀ m, (PythonScriptExecutor.wait_for_package_upload (fun j => some (st j)) i t
          endTime).1 = .uploadFailed m →
        (st (PythonScriptExecutor.wait_for_package_upload (fun j => some (st j)) i t
          endTime).2).provisioningState = UPLOAD_STATE.FAILED.value
        ∧ m = (st (PythonScriptExecutor.wait_for_package_upload (fun j => some (st j)) i t
          endTime).2).errorMessage)
    ∧ ((PythonScriptExecutor.wait_for_package_upload (fun j => some (st j)) i t endTime).1
          = .timedOut →
        endTime ≤ t + PythonScriptExecutor.UPLOAD_STATE_CHECK_INTERVAL_SECONDS *
          ((PythonScriptExecutor.wait_for_package_upload (fun j => some (st j)) i t
            endTime).2 - i)) := by
  have h := wait_for_package_upload_props st (endTime - t) i t endTime le_rfl
  refine ⟨?_, h.2.2.1, h.2.2.2.1, h.2.2.2.2⟩
  cases hr : (PythonScriptExecutor.wait_for_package_upload (fun j => some (st j)) i t
      endTime).1 with
  | completed => exact Or.inl rfl
  | startFailed => exact absurd hr h.2.1
  | uploadFailed m => exact Or.inr (Or.inl ⟨m, rfl⟩)
  | timedOut => exact Or.inr (Or.inr rfl)

/-! ## The timed session model (C7, C8)

The session object of azure_automation_session.py: the two attributes set
by __init__ besides the timestamp (lines 52 to 54), and the temp-storage
URL attribute that __upload_file_to_temp_storage writes at line 142.  The
clock is an exact rational number of seconds. -/

structure Session where
  account_id : String
  access_token : String
  next_request_time : ℚ
  current_temp_storage_url : Option String
deriving DecidableEq, Repr

/-- The value of time.time() after the sleep of __wait_for_next_request
(lines 79 to 82): when the recorded next-request time is still ahead the
call sleeps exactly the gap, otherwise it does not sleep. -/
def wait_end_time (now : ℚ) (s : Session) : ℚ :=
  if 0 < s.next_request_time - now then now + (s.next_request_time - now) else now

/-- AzureAutomationSession.__wait_for_next_request (lines 75 to 84):
returns the time at which it hands control back together with the session
whose next-request time was advanced by the fixed spacing. -/
def wait_for_next_request (now : ℚ) (s : Session) : ℚ × Session :=
  (wait_end_time now s,
   { s with next_request_time := wait_end_time now s + TIME_BETWEEN_REQUESTS_SECONDS })

theorem wait_end_time_eq_max (now : ℚ) (s : Session) :
    wait_end_time now s = max now s.next_request_time := by
  simp only [wait_end_time]
  by_cases h : 0 < s.next_request_time - now
  · rw [if_pos h]
    have h1 : now + (s.next_request_time - now) = s.next_request_time := by ring
    rw [h1, max_eq_right]
    linarith
  · rw [if_neg h, max_eq_left]
    linarith

/-- The retry loop of __http_request on the clock: attempt i is issued at
time t; a retryable attempt is followed by the fixed error sleep before the
next one; issuing and receiving are instantaneous.  Returns the outcome,
the time at which the loop ends and the list of times at which requests
were issued. -/
def http_attempts {β : Type} (env : Nat → Attempt β) :
    Nat → Nat → ℚ → HttpOutcome β × ℚ × List ℚ
  | _, 0, t => (.cloudMinerError MSG_MAX_RETRIES, t, [])
  | i, fuel + 1, t =>
    match env i with
    | .transportError =>
      let r := http_attempts env (i + 1) fuel (t + SLEEP_BETWEEN_ERROR_SECONDS)
      (r.1, r.2.1, t :: r.2.2)
    | .response status body =>
      if status ∈ RETRY_STATUS_CODES then
        let r := http_attempts env (i + 1) fuel (t + SLEEP_BETWEEN_ERROR_SECONDS)
        (r.1, r.2.1, t :: r.2.2)
      else if raiseForStatusRaises status then (.httpError status, t, [t])
      else (.ok status body, t, [t])

/-- One call of __http_request on the timed session model. -/
structure HttpCall (β : Type) where
  outcome : HttpOutcome β
  endTime : ℚ
  issueTimes : List ℚ
  session : Session

/-- AzureAutomationSession.__http_request (lines 86 to 132) on the timed
model: __wait_for_next_request runs once, before the first attempt, and is
the only place the session state changes; then the retry loop runs from
the wait-end time. -/
def http_request_timed {β : Type} (env : Nat → Attempt β) (now : ℚ) (s : Session) :
    HttpCall β :=
  { outcome := (http_attempts env 0 DEFAULT_RETRIES (wait_for_next_request now s).1).1
    endTime := (http_attempts env 0 DEFAULT_RETRIES (wait_for_next_request now s).1).2.1
    issueTimes := (http_attempts env 0 DEFAULT_RETRIES (wait_for_next_request now s).1).2.2
    session := (wait_for_next_request now s).2 }

/-- Differences between consecutive entries of a list of times. -/
def consecutiveGaps : List ℚ → List ℚ
  | a :: b :: rest => (b - a) :: consecutiveGaps (b :: rest)
  | _ => []

theorem http_attempts_headI {β : Type} (env : Nat → Attempt β) (fuel i : Nat) (t : ℚ)
    (hf : fuel ≠ 0) :
    (http_attempts env i fuel t).2.2.headI = t
    ∧ (http_attempts env i fuel t).2.2 ≠ [] := by
  cases fuel with
  | zero => exact absurd rfl hf
  | succ fuel =>
    cases h : env i with
    | transportError => simp [http_attempts, h]
    | response status body =>
      by_cases hs : status ∈ RETRY_STATUS_CODES
      · simp [http_attempts, h, hs]
      · by_cases hr : raiseForStatusRaises status <;> simp [http_attempts, h, hs, hr]

theorem http_attempts_ends_with_zero_fuel {β : Type} (env : Nat → Attempt β) (i : Nat)
    (t : ℚ) : (http_attempts env i 0 t).2.2 = [] := rfl

theorem http_attempts_gaps {β : Type} (env : Nat → Attempt β) :
    ∀ (fuel i : Nat) (t : ℚ),
      ∀ g ∈ consecutiveGaps (http_attempts env i fuel t).2.2,
        g = SLEEP_BETWEEN_ERROR_SECONDS := by
  intro fuel
  induction fuel with
  | zero =>
    intro i t g hg
    simp [http_attempts, consecutiveGaps] at hg
  | succ fuel ih =>
    intro i t g hg
    have headfact := http_attempts_headI env fuel (i + 1) (t + SLEEP_BETWEEN_ERROR_SECONDS)
    cases h : env i with
    | transportError =>
      simp only [http_attempts, h] at hg
      cases hrest : (http_attempts env (i + 1) fuel (t + SLEEP_BETWEEN_ERROR_SECONDS)).2.2 with
      | nil => simp [hrest, consecutiveGaps] at hg
      | cons b rest =>
        have hfz : fuel ≠ 0 := by
          intro hf0
          rw [hf0, http_attempts_ends_with_zero_fuel] at hrest
          cases hrest
        have hb : b = t + SLEEP_BETWEEN_ERROR_SECONDS := by
          have := (headfact hfz).1
          rw [hrest] at this
          simpa using this
        rw [hrest] at hg
        simp only [consecutiveGaps, List.mem_cons] at hg
        rcases hg with hg | hg
        · rw [hg, hb]
          ring
        · have := ih (i + 1) (t + SLEEP_BETWEEN_ERROR_SECONDS) g
          rw [hrest] at this
          exact this (by simpa [consecutiveGaps] using hg)
    | response status body =>
      by_cases hs : status ∈ RETRY_STATUS_CODES
      · simp only [http_attempts, h, if_pos hs] at hg
        cases hrest : (http_attempts env (i + 1) fuel (t + SLEEP_BETWEEN_ERROR_SECONDS)).2.2 with
        | nil => simp [hrest, consecutiveGaps] at hg
        | cons b rest =>
          have hfz : fuel ≠ 0 := by
            intro hf0
            rw [hf0, http_attempts_ends_with_zero_fuel] at hrest
            cases hrest
          have hb : b = t + SLEEP_BETWEEN_ERROR_SECONDS := by
            have := (headfact hfz).1
            rw [hrest] at this
            simpa using this
          rw [hrest] at hg
          simp only [consecutiveGaps, List.mem_cons] at hg
          rcases hg with hg | hg
          · rw [hg, hb]
            ring
          · have := ih (i + 1) (t + SLEEP_BETWEEN_ERROR_SECONDS) g
            rw [hrest] at this
            exact this (by simpa [consecutiveGaps] using hg)
      · by_cases hr : raiseForStatusRaises status <;>
          simp [http_attempts, h, hs, hr, consecutiveGaps] at hg

/-- C8 (amended): the spacing delay is applied once per helper call,
before its first attempt: the first request of a call is issued at the
wait-end time, never earlier than the next-request time recorded at the
start of the call; at that moment the next-request time is set to the
first-issue time plus the fixed spacing (it is not touched after later
attempts); retry attempts within a call are spaced by exactly the
ten-second error sleep; and the first attempt of any subsequent call on
the resulting session is issued at least the fixed spacing after the first
attempt of this call. -/
theorem http_request_timed_spacing {β β2 : Type} (env : Nat → Attempt β)
    (env2 : Nat → Attempt β2) (now now2 : ℚ) (s : Session) :
    (http_request_timed env now s).issueTimes.headI = max now s.next_request_time
    ∧ s.next_request_time ≤ (http_request_timed env now s).issueTimes.headI
    ∧ (http_request_timed env now s).session.next_request_time
        = (http_request_timed env now s).issueTimes.headI + TIME_BETWEEN_REQUESTS_SECONDS
    ∧ (∀ g ∈ consecutiveGaps (http_request_timed env now s).issueTimes,
        g = SLEEP_BETWEEN_ERROR_SECONDS)
    ∧ (http_request_timed env now s).issueTimes.headI + TIME_BETWEEN_REQUESTS_SECONDS
        ≤ (http_request_timed env2 now2 ((http_request_timed env now s).session)).issueTimes.headI := by
  have hhead : ∀ (γ : Type) (e : Nat → Attempt γ) (n : ℚ) (st : Session),
      (http_request_timed e n st).issueTimes.headI = max n st.next_request_time := by
    intro γ e n st
    have := (http_attempts_headI e DEFAULT_RETRIES 0 (wait_for_next_request n st).1
      (by simp [DEFAULT_RETRIES])).1
    simp only [http_request_timed]
    rw [this]
    simp [wait_for_next_request, wait_end_time_eq_max]
  refine ⟨hhead β env now s, ?_, ?_, ?_, ?_⟩
  · rw [hhead β env now s]
    exact le_max_right now s.next_request_time
  · rw [hhead β env now s]
    simp [http_request_timed, wait_for_next_request, wait_end_time_eq_max]
  · exact fun g hg => http_attempts_gaps env DEFAULT_RETRIES 0
      (wait_for_next_request now s).1 g hg
  · rw [hhead β2 env2 now2 ((http_request_timed env now s).session),
      hhead β env now s]
    have hnrt : (http_request_timed env now s).session.next_request_time
        = max now s.next_request_time + TIME_BETWEEN_REQUESTS_SECONDS := by
      simp [http_request_timed, wait_for_next_request, wait_end_time_eq_max]
    rw [hnrt]
    exact le_max_right now2 (max now s.next_request_time + TIME_BETWEEN_REQUESTS_SECONDS)

/-- A fresh session as __init__ leaves it, with the clock started at 0 and
no successful validation traffic recorded yet. -/
def session0 : Session :=
  { account_id := "/subscriptions/s/resourceGroups/g/providers/Microsoft.Automation/automationAccounts/a"
    access_token := "token"
    next_request_time := 0
    current_temp_storage_url := none }

/-- Oracle whose first attempt returns status 503 and whose later attempts
return status 200. -/
def env503then200 : Nat → Attempt String :=
  fun i => if i = 0 then .response 503 "unavailable" else .response 200 "fine"

/-- Oracle all of whose attempts return status 200. -/
def env200 : Nat → Attempt String := fun _ => .response 200 "fine"

/-- C8 (counterexample): a helper call whose first attempt gets a 503
issues its requests at times 0 and 10, but leaves the next-request time at
0.5 (the first-issue time plus the spacing), not at 10.5; a second helper
call starting when the first returns then issues its request at time 10 as
well, so two consecutive requests of one session are issued with no
spacing at all, closer together than the fixed half-second. -/
theorem http_request_timed_spacing_counterexample :
    (http_request_timed env503then200 0 session0).issueTimes = [0, 10]
    ∧ (http_request_timed env503then200 0 session0).session.next_request_time = 1/2
    ∧ (http_request_timed env200
        (http_request_timed env503then200 0 session0).endTime
        (http_request_timed env503then200 0 session0).session).issueTimes = [10]
    ∧ ¬ ((http_request_timed env503then200 0 session0).issueTimes.getLastD 0
          + TIME_BETWEEN_REQUESTS_SECONDS
        ≤ (http_request_timed env200
            (http_request_timed env503then200 0 session0).endTime
            (http_request_timed env503then200 0 session0).session).issueTimes.headI) := by
  norm_num [http_request_timed, http_attempts, wait_for_next_request, wait_end_time,
    env503then200, env200, session0, DEFAULT_RETRIES, RETRY_STATUS_CODES,
    HTTPStatus_TOO_MANY_REQUESTS, HTTPStatus_GATEWAY_TIMEOUT, HTTPStatus_SERVICE_UNAVAILABLE,
    raiseForStatusRaises, TIME_BETWEEN_REQUESTS_SECONDS, SLEEP_BETWEEN_ERROR_SECONDS,
    List.getLastD, List.headI]

/-! ## Session operations on the timed model (C7) -/

/-- Message raised by delete_python_package at line 219 when the package
does not exist. -/
def MSG_DELETE_PACKAGE_NOT_EXIST (package_name : String) : String :=
  "无法删除包 " ++ package_name ++ "。包不存在"

/-- AzureAutomationSession.__upload_file_to_temp_storage (lines 134 to
156): a GET to the SAS-link endpoint whose json body is written into the
current_temp_storage_url attribute (line 142), then an unauthenticated PUT
of the file body to that URL; the local file read is instantaneous.  On
success the stored URL is returned. -/
def upload_file_to_temp_storage (envGet envPut : Nat → Attempt String) (now : ℚ)
    (s : Session) : OpResult String × ℚ × Session :=
  match (http_request_timed envGet now s).outcome with
  | .ok _ url =>
    match (http_request_timed envPut (http_request_timed envGet now s).endTime
        { (http_request_timed envGet now s).session with
            current_temp_storage_url := some url }).outcome with
    | .ok _ _ =>
      (.ok url,
       (http_request_timed envPut (http_request_timed envGet now s).endTime
          { (http_request_timed envGet now s).session with
              current_temp_storage_url := some url }).endTime,
       (http_request_timed envPut (http_request_timed envGet now s).endTime
          { (http_request_timed envGet now s).session with
              current_temp_storage_url := some url }).session)
    | .httpError status =>
      (.httpError status,
       (http_request_timed envPut (http_request_timed envGet now s).endTime
          { (http_request_timed envGet now s).session with
              current_temp_storage_url := some url }).endTime,
       (http_request_timed envPut (http_request_timed envGet now s).endTime
          { (http_request_timed envGet now s).session with
              current_temp_storage_url := some url }).session)
    | .cloudMinerError msg =>
      (.cloudMinerError msg,
       (http_request_timed envPut (http_request_timed envGet now s).endTime
          { (http_request_timed envGet now s).session with
              current_temp_storage_url := some url }).endTime,
       (http_request_timed envPut (http_request_timed envGet now s).endTime
          { (http_request_timed envGet now s).session with
              current_temp_storage_url := some url }).session)
  | .httpError status =>
    (.httpError status, (http_request_timed envGet now s).endTime,
     (http_request_timed envGet now s).session)
  | .cloudMinerError msg =>
    (.cloudMinerError msg, (http_request_timed envGet now s).endTime,
     (http_request_timed envGet now s).session)

/-- AzureAutomationSession.upload_powershell_module (lines 158 to 173):
temp-storage upload of the zipped module, then a PUT of the content link
to the modules endpoint. -/
def upload_powershell_module (envGet envPut envModule : Nat → Attempt String) (now : ℚ)
    (s : Session) : OpResult Unit × ℚ × Session :=
  match upload_file_to_temp_storage envGet envPut now s with
  | (.ok _, t1, s1) =>
    match (http_request_timed envModule t1 s1).outcome with
    | .ok _ _ => (.ok (), (http_request_timed envModule t1 s1).endTime,
        (http_request_timed envModule t1 s1).session)
    | .httpError status => (.httpError status, (http_request_timed envModule t1 s1).endTime,
        (http_request_timed envModule t1 s1).session)
    | .cloudMinerError msg => (.cloudMinerError msg,
        (http_request_timed envModule t1 s1).endTime,
        (http_request_timed envModule t1 s1).session)
  | (.httpError status, t1, s1) => (.httpError status, t1, s1)
  | (.cloudMinerError msg, t1, s1) => (.cloudMinerError msg, t1, s1)

/-- AzureAutomationSession.upload_python_package (lines 175 to 191):
temp-storage upload of the whl, then a PUT of the content link to the
python3Packages endpoint. -/
def upload_python_package (envGet envPut envPackage : Nat → Attempt String) (now : ℚ)
    (s : Session) : OpResult Unit × ℚ × Session :=
  match upload_file_to_temp_storage envGet envPut now s with
  | (.ok _, t1, s1) =>
    match (http_request_timed envPackage t1 s1).outcome with
    | .ok _ _ => (.ok (), (http_request_timed envPackage t1 s1).endTime,
        (http_request_timed envPackage t1 s1).session)
    | .httpError status => (.httpError status, (http_request_timed envPackage t1 s1).endTime,
        (http_request_timed envPackage t1 s1).session)
    | .cloudMinerError msg => (.cloudMinerError msg,
        (http_request_timed envPackage t1 s1).endTime,
        (http_request_timed envPackage t1 s1).session)
  | (.httpError status, t1, s1) => (.httpError status, t1, s1)
  | (.cloudMinerError msg, t1, s1) => (.cloudMinerError msg, t1, s1)

/-- AzureAutomationSession.get_python_package (lines 193 to 206) on the
timed model. -/
def get_python_package_timed {β : Type} (env : Nat → Attempt β) (now : ℚ) (s : Session) :
    OpResult (Option β) × ℚ × Session :=
  match (http_request_timed env now s).outcome with
  | .ok _ body => (.ok (some body), (http_request_timed env now s).endTime,
      (http_request_timed env now s).session)
  | .cloudMinerError msg => (.cloudMinerError msg, (http_request_timed env now s).endTime,
      (http_request_timed env now s).session)
  | .httpError status =>
    (if status = HTTPStatus_NOT_FOUND then .ok none else .httpError status,
     (http_request_timed env now s).endTime, (http_request_timed env now s).session)

/-- AzureAutomationSession.delete_python_package (lines 208 to 221) on the
timed model. -/
def delete_python_package_timed {β : Type} (package_name : String) (env : Nat → Attempt β)
    (now : ℚ) (s : Session) : OpResult Unit × ℚ × Session :=
  match (http_request_timed env now s).outcome with
  | .ok _ _ => (.ok (), (http_request_timed env now s).endTime,
      (http_request_timed env now s).session)
  | .cloudMinerError msg => (.cloudMinerError msg, (http_request_timed env now s).endTime,
      (http_request_timed env now s).session)
  | .httpError status =>
    (if status = HTTPStatus_NOT_FOUND then
        .cloudMinerError (MSG_DELETE_PACKAGE_NOT_EXIST package_name)
      else .httpError status,
     (http_request_timed env now s).endTime, (http_request_timed env now s).session)

theorem http_request_timed_session_eq {β : Type} (env : Nat → Attempt β) (now : ℚ)
    (s : Session) :
    (http_request_timed env now s).session
      = { s with next_request_time := wait_end_time now s + TIME_BETWEEN_REQUESTS_SECONDS } :=
  rfl

theorem upload_file_to_temp_storage_preserves (envGet envPut : Nat → Attempt String)
    (now : ℚ) (s : Session) :
    (upload_file_to_temp_storage envGet envPut now s).2.2.account_id = s.account_id
    ∧ (upload_file_to_temp_storage envGet envPut now s).2.2.access_token = s.access_token := by
  unfold upload_file_to_temp_storage
  cases h1 : (http_request_timed envGet now s).outcome with
  | ok status url =>
    dsimp only
    cases h2 : (http_request_timed envPut (http_request_timed envGet now s).endTime
        { (http_request_timed envGet now s).session with
            current_temp_storage_url := some url }).outcome <;>
      exact ⟨rfl, rfl⟩
  | httpError status => exact ⟨rfl, rfl⟩
  | cloudMinerError msg => exact ⟨rfl, rfl⟩

/-- C7 (counterexample): __upload_file_to_temp_storage mutates session
state beyond the rate-limiting timestamp: on a fresh session it writes the
received SAS link into the current_temp_storage_url attribute, so the
resulting session differs from the original even after allowing the
next-request time to change. -/
theorem upload_to_temp_storage_mutates_session_url :
    session0.current_temp_storage_url = none
    ∧ (upload_file_to_temp_storage env200 env200 0 session0).2.2.current_temp_storage_url
        = some "fine"
    ∧ (upload_file_to_temp_storage env200 env200 0 session0).2.2
        ≠ { session0 with next_request_time :=
              (upload_file_to_temp_storage env200 env200 0 session0).2.2.next_request_time } := by
  refine ⟨rfl, ?_, ?_⟩ <;>
    norm_num [upload_file_to_temp_storage, http_request_timed, http_attempts,
      wait_for_next_request, wait_end_time, env200, session0, DEFAULT_RETRIES,
      RETRY_STATUS_CODES, HTTPStatus_TOO_MANY_REQUESTS, HTTPStatus_GATEWAY_TIMEOUT,
      HTTPStatus_SERVICE_UNAVAILABLE, raiseForStatusRaises, TIME_BETWEEN_REQUESTS_SECONDS]
  simp

/-- C7 (amended): apart from the rate-limiting timestamp and the
temp-storage URL attribute written by __upload_file_to_temp_storage and by
the two upload operations built on it, the session state is not mutated:
the attributes set at construction, the account id and the access token,
are unchanged by every operation of the session. -/
theorem session_operations_preserve_constructor_attributes {β γ : Type}
    (env : Nat → Attempt β) (envDel : Nat → Attempt γ)
    (envGet envPut envModule envPackage : Nat → Attempt String)
    (now : ℚ) (s : Session) (package_name : String) :
    ((wait_for_next_request now s).2.account_id = s.account_id
      ∧ (wait_for_next_request now s).2.access_token = s.access_token)
    ∧ ((http_request_timed env now s).session.account_id = s.account_id
      ∧ (http_request_timed env now s).session.access_token = s.access_token)
    ∧ ((upload_file_to_temp_storage envGet envPut now s).2.2.account_id = s.account_id
      ∧ (upload_file_to_temp_storage envGet envPut now s).2.2.access_token = s.access_token)
    ∧ ((upload_powershell_module envGet envPut envModule now s).2.2.account_id = s.account_id
      ∧ (upload_powershell_module envGet envPut envModule now s).2.2.access_token
          = s.access_token)
    ∧ ((upload_python_package envGet envPut envPackage now s).2.2.account_id = s.account_id
      ∧ (upload_python_package envGet envPut envPackage now s).2.2.access_token
          = s.access_token)
    ∧ ((get_python_package_timed env now s).2.2.account_id = s.account_id
      ∧ (get_python_package_timed env now s).2.2.access_token = s.access_token)
    ∧ ((delete_python_package_timed package_name envDel now s).2.2.account_id = s.account_id
      ∧ (delete_python_package_timed package_name envDel now s).2.2.access_token
          = s.access_token) := by
  have hfile := upload_file_to_temp_storage_preserves envGet envPut now s
  refine ⟨⟨rfl, rfl⟩, ⟨rfl, rfl⟩, hfile, ?_, ?_, ?_, ?_⟩
  · have ha := hfile.1
    have hb := hfile.2
    unfold upload_powershell_module
    rcases hu : upload_file_to_temp_storage envGet envPut now s with ⟨o, t1, s1⟩
    rw [hu] at ha hb
    cases o with
    | ok url =>
      dsimp only
      cases h2 : (http_request_timed envModule t1 s1).outcome <;> exact ⟨ha, hb⟩
    | httpError status => exact ⟨ha, hb⟩
    | cloudMinerError msg => exact ⟨ha, hb⟩
  · have ha := hfile.1
    have hb := hfile.2
    unfold upload_python_package
    rcases hu : upload_file_to_temp_storage envGet envPut now s with ⟨o, t1, s1⟩
    rw [hu] at ha hb
    cases o with
    | ok url =>
      dsimp only
      cases h2 : (http_request_timed envPackage t1 s1).outcome <;> exact ⟨ha, hb⟩
    | httpError status => exact ⟨ha, hb⟩
    | cloudMinerError msg => exact ⟨ha, hb⟩
  · unfold get_python_package_timed
    cases h2 : (http_request_timed env now s).outcome <;> exact ⟨rfl, rfl⟩
  · unfold delete_python_package_timed
    cases h2 : (http_request_timed envDel now s).outcome <;> exact ⟨rfl, rfl⟩


/-! ## Executor traces (scripts_executor.py) and the CLI flow (cloud_miner.py)

The executors act on the automation account only through the session
operations; a run is abstracted as the sequence of account-level actions it
performs, in order.  uuid.uuid4() is an oracle giving the name drawn at
the i-th draw of the run. -/

/-- An account-level action of an executor run. -/
inductive UploadAction where
  | getPackage (package_name : String)
  | deletePackage (package_name : String)
  | uploadPythonPackage (package_name : String)
  | waitForUpload (package_name : String)
  | uploadPowershellModule (module_name : String)
deriving DecidableEq, Repr

def PIP_PACKAGE_NAME : String := "pip"
def PowershellScriptExecutor.EXTENSION : String := ".ps1"
def PythonScriptExecutor.EXTENSION : String := ".py"

/-- PowershellScriptExecutor.execute_script (lines 41 to 54): for each
index in range(count), draw a uuid, zip the script locally and upload it
as a module under the uuid name. -/
def PowershellScriptExecutor.execute_script_trace (uuids : Nat → String) (count : Nat) :
    List UploadAction :=
  (List.range count).map fun index => .uploadPowershellModule (uuids index)

/-- PythonScriptExecutor._delete_pip_if_exists (lines 76 to 87): get the
pip package and, when it exists, delete it. -/
def PythonScriptExecutor.delete_pip_if_exists_trace (pipExists : Bool) : List UploadAction :=
  .getPackage PIP_PACKAGE_NAME
    :: (if pipExists then [.deletePackage PIP_PACKAGE_NAME] else [])

/-- PythonScriptExecutor.execute_script (lines 164 to 186): delete any
existing pip package, build the whl locally, upload it as the package
named pip and wait for that upload, then for each index in range(count)
draw a uuid and upload the dummy whl under the uuid name. -/
def PythonScriptExecutor.execute_script_trace (pipExists : Bool) (uuids : Nat → String)
    (count : Nat) : List UploadAction :=
  PythonScriptExecutor.delete_pip_if_exists_trace pipExists
    ++ [.uploadPythonPackage PIP_PACKAGE_NAME, .waitForUpload PIP_PACKAGE_NAME]
    ++ (List.range count).map fun index => .uploadPythonPackage (uuids index)

/-- C10: the python executor run is, in order, the pip get-and-delete, the
pip upload with its wait, and then exactly count dummy uploads under the
drawn uuid names; with count 0 the pip package is still replaced; the
powershell run is exactly count module uploads under the drawn uuid names
and with count 0 it performs no upload at all; when the drawn names are
distinct the uploaded dummy names are pairwise distinct. -/
theorem executor_traces_characterization (uuids : Nat → String) (count : Nat)
    (pipExists : Bool)
    (hinj : ∀ i, i < count → ∀ j, j < count → uuids i = uuids j → i = j) :
    PythonScriptExecutor.execute_script_trace pipExists uuids count
      = (UploadAction.getPackage PIP_PACKAGE_NAME
          :: (if pipExists then [UploadAction.deletePackage PIP_PACKAGE_NAME] else []))
        ++ [UploadAction.uploadPythonPackage PIP_PACKAGE_NAME,
            UploadAction.waitForUpload PIP_PACKAGE_NAME]
        ++ (List.range count).map (fun index => UploadAction.uploadPythonPackage (uuids index))
    ∧ UploadAction.uploadPythonPackage PIP_PACKAGE_NAME
        ∈ PythonScriptExecutor.execute_script_trace pipExists uuids 0
    ∧ PowershellScriptExecutor.execute_script_trace uuids 0 = []
    ∧ (PowershellScriptExecutor.execute_script_trace uuids count).length = count
    ∧ PowershellScriptExecutor.execute_script_trace uuids count
        = (List.range count).map (fun index => UploadAction.uploadPowershellModule (uuids index))
    ∧ ((List.range count).map uuids).Nodup := by
  refine ⟨rfl, ?_, rfl, ?_, rfl, ?_⟩
  · cases pipExists <;>
      simp [PythonScriptExecutor.execute_script_trace,
        PythonScriptExecutor.delete_pip_if_exists_trace]
  · simp [PowershellScriptExecutor.execute_script_trace]
  · refine List.Nodup.map_on ?_ (List.nodup_range count)
    intro x hx y hy hxy
    exact hinj x (List.mem_range.mp hx) y (List.mem_range.mp hy) hxy

/-- The uuid oracle used in closed instances: the i-th draw is the decimal
form of i. -/
def uuidsW : Nat → String := fun n => Nat.repr n

/-- C10 (witness): with three distinct drawn names, the dummy names are
pairwise distinct, the powershell executor with count 0 uploads nothing,
and the python executor with count 0 still uploads the pip package. -/
theorem executor_traces_characterization_instance :
    ((List.range 3).map uuidsW).Nodup
    ∧ PowershellScriptExecutor.execute_script_trace uuidsW 0 = []
    ∧ UploadAction.uploadPythonPackage PIP_PACKAGE_NAME
        ∈ PythonScriptExecutor.execute_script_trace true uuidsW 0 := by
  have h := executor_traces_characterization uuidsW 3 true (by decide)
  exact ⟨h.2.2.2.2.2, h.2.2.1, h.2.1⟩

/-! ## The CLI flow (cloud_miner.py, lines 52 to 85) -/

inductive ExecutorKind where
  | powershell
  | python
deriving DecidableEq, Repr

/-- One step of main, in the order main performs them. -/
inductive MainStep where
  | parse_args
  | token_from_args
  | token_from_cli
  | session_init
  | session_init_raised
  | choose_executor (kind : ExecutorKind)
  | upload (action : UploadAction)
  | raise_error (msg : String)
deriving DecidableEq, Repr

def MSG_PATH_NOT_EXIST (path : String) : String := "脚本路径 " ++ path ++ " 不存在！"

def MSG_REQUIREMENTS_NOT_EXIST (path : String) : String :=
  "要求文件路径 " ++ path ++ " 不存在！"

def MSG_UNSUPPORTED_EXTENSION (extension : String) : String :=
  "不支持的文件扩展名：" ++ extension

/-- The parsed command-line arguments of cloud_miner.py (lines 42 to 48);
verbose only sets the log level and is elided. -/
structure Args where
  path : String
  id : String
  count : Nat
  token : Option String
  requirements : Option String
deriving DecidableEq, Repr

/-- The environment main runs against: the two os.path.exists answers, the
value of utils.get_file_extension(args.path) (utils.py is not part of the
repository sources; its result is taken as an oracle), whether the session
constructor succeeds, whether the pip package already exists, and the uuid
oracle. -/
structure MainEnv where
  pathExists : Bool
  requirementsExists : Bool
  fileExtension : String
  sessionInitOk : Bool
  pipPackageExists : Bool
  uuids : Nat → String

/-- The python str.lower of the file extension, modelled characterwise
(extensions are ascii). -/
def str_lower (s : String) : String := String.mk (s.data.map Char.toLower)

/-- Truthiness of args.token in the python expression
args.token or get_access_token_from_cli(): None and the empty string are
falsy. -/
def tokenTruthy : Option String → Bool
  | none => false
  | some t => !(t == "")

/-- main (lines 52 to 85) as the list of steps it performs: parse, check
the two paths, take the token from the arguments or from the Azure CLI,
construct the session (validated against one endpoint), dispatch on the
lower-cased file extension, and run the chosen executor; an unsupported
extension raises instead of dispatching. -/
def main (args : Args) (env : MainEnv) : List MainStep :=
  MainStep.parse_args ::
  (if !env.pathExists then [MainStep.raise_error (MSG_PATH_NOT_EXIST args.path)]
   else if args.requirements.isSome && !env.requirementsExists then
     [MainStep.raise_error (MSG_REQUIREMENTS_NOT_EXIST (args.requirements.getD ""))]
   else
     (if tokenTruthy args.token then MainStep.token_from_args else MainStep.token_from_cli)
       :: MainStep.session_init
       :: (if !env.sessionInitOk then [MainStep.session_init_raised]
           else if str_lower env.fileExtension = PowershellScriptExecutor.EXTENSION then
             MainStep.choose_executor .powershell
               :: (PowershellScriptExecutor.execute_script_trace env.uuids args.count).map
                    MainStep.upload
           else if str_lower env.fileExtension = PythonScriptExecutor.EXTENSION then
             MainStep.choose_executor .python
               :: (PythonScriptExecutor.execute_script_trace env.pipPackageExists env.uuids
                    args.count).map MainStep.upload
           else [MainStep.raise_error (MSG_UNSUPPORTED_EXTENSION (str_lower env.fileExtension))]))

/-- Whether a step list performs any account upload action. -/
def hasUploadStep (steps : List MainStep) : Bool :=
  steps.any fun step =>
    match step with
    | .upload _ => true
    | _ => false

/-- C5: when the path checks pass and the session constructor succeeds,
main is exactly the linear flow parse, token (from the arguments when
given and non-empty, otherwise from the Azure CLI), session construction,
then the dispatch on the lower-cased extension: .ps1 runs the powershell
executor, .py runs the python executor, and any other extension raises the
unsupported-extension CloudMinerException; with an unsupported extension
no upload is performed at all. -/
theorem main_linear_flow (args : Args) (env : MainEnv)
    (hpath : env.pathExists = true)
    (hreq : args.requirements.isSome = true → env.requirementsExists = true)
    (hsession : env.sessionInitOk = true) :
    main args env
      = MainStep.parse_args
        :: (if tokenTruthy args.token then MainStep.token_from_args
            else MainStep.token_from_cli)
        :: MainStep.session_init
        :: (if str_lower env.fileExtension = PowershellScriptExecutor.EXTENSION then
              MainStep.choose_executor .powershell
                :: (PowershellScriptExecutor.execute_script_trace env.uuids args.count).map
                     MainStep.upload
            else if str_lower env.fileExtension = PythonScriptExecutor.EXTENSION then
              MainStep.choose_executor .python
                :: (PythonScriptExecutor.execute_script_trace env.pipPackageExists env.uuids
                     args.count).map MainStep.upload
            else [MainStep.raise_error (MSG_UNSUPPORTED_EXTENSION (str_lower env.fileExtension))])
    ∧ (str_lower env.fileExtension ≠ PowershellScriptExecutor.EXTENSION →
        str_lower env.fileExtension ≠ PythonScriptExecutor.EXTENSION →
        hasUploadStep (main args env) = false) := by
  have hreq2 : (args.requirements.isSome && !env.requirementsExists) = false := by
    cases hq : args.requirements.isSome
    · simp
    · simp [hreq hq]
  constructor
  · simp [main, hpath, hreq2, hsession]
  · intro h1 h2
    cases htok : tokenTruthy args.token <;>
      simp [main, hpath, hreq2, hsession, h1, h2, hasUploadStep, htok]

/-- Concrete arguments for the main-flow instance: a token is given, no
requirements file. -/
def argsW : Args :=
  { path := "payload.txt"
    id := "/subscriptions/s/resourceGroups/g/providers/Microsoft.Automation/automationAccounts/a"
    count := 2
    token := some "tok"
    requirements := none }

/-- Concrete environment for the main-flow instance: the path exists, the
session constructor succeeds, and the file extension is the unsupported
.TXT. -/
def envW : MainEnv :=
  { pathExists := true
    requirementsExists := true
    fileExtension := ".TXT"
    sessionInitOk := true
    pipPackageExists := false
    uuids := uuidsW }

/-- C5 (witness): with an existing script whose extension lowers to the
unsupported .txt, main raises before performing any upload. -/
theorem main_linear_flow_instance : hasUploadStep (main argsW envW) = false :=
  (main_linear_flow argsW envW rfl (fun _ => rfl) rfl).2 (by decide) (by decide)

end CloudMiner
